import Mathlib

/-!
Verification of the run-orchestration core of the `uidai_mvp` repository:
the pipeline state machine (`server/src/workflows/ai_workflow.py` and the
agent nodes it wires together), the healing loop
(`server/src/tools/auto_healer.py`, `server/src/tools/healer.py`) and the
run queue manager (`server/src/queue_manager.py`).

The Python code is shallowly embedded: every function below is a direct
translation of the correspondingly named Python function; external
collaborators (the crawler, the Ollama client, the Playwright runner, the
database) are passed in as explicit oracle values describing the outcome of
each call, and filesystem state is threaded explicitly.  Logging and
database writes performed by the Python code do not affect the run context
and are not modeled.
-/

/-! ### Small Python-semantics helpers -/

/-- Python `a or b` restricted to optional strings: `None` and `""` are falsy. -/
def pyOr (a b : Option String) : Option String :=
  match a with
  | some s => if s = "" then b else some s
  | none => b

/-- Python truthiness of an optional string (`None` and `""` are falsy). -/
def pyTruthy (a : Option String) : Bool :=
  match a with
  | some s => s ≠ ""
  | none => false

/-- Python `needle in haystack` on strings (substring containment). -/
def strContains (haystack needle : String) : Bool :=
  haystack.toList.tails.any (fun t => needle.toList.isPrefixOf t)

/-- Split a character list at a separator (for path components). -/
def splitOnChar (sep : Char) : List Char → List (List Char)
  | [] => [[]]
  | c :: cs =>
      let r := splitOnChar sep cs
      if c = sep then [] :: r
      else
        match r with
        | [] => [[c]]
        | h :: t => (c :: h) :: t

/-- Python `Path(p).name`: the final path component. -/
def pathName (p : String) : String :=
  String.mk ((splitOnChar '/' p.toList).getLastD p.toList)

/-- Python `s.strip()`: drop leading and trailing whitespace.  (Defined
over the character list so that it evaluates by kernel reduction; Python
string semantics are per code point.) -/
def pyStrip (s : String) : String :=
  String.mk (((s.toList.dropWhile Char.isWhitespace).reverse.dropWhile Char.isWhitespace).reverse)

/-- Python `len(code.split('\n'))`: one more than the number of newlines. -/
def lineCount (s : String) : Nat :=
  (s.toList.count '\n') + 1

/-! ### Data model

Faithful record rendering of the `TestRunState` `TypedDict`
(`server/src/state.py`).  The dict is declared `total=False`; every reader
in the orchestration code accesses absent keys through `.get` with a fixed
default, so each field is modeled either as an `Option` (when readers
distinguish absence) or as a plain value initialised to that default by
`initial_state`.  The two `datetime` fields (`started_at`, `completed_at`)
carry wall-clock values and are not modeled. -/

/-- One per-test record inside the runner's report
(fields read by `healing_node` and `get_heal_suggestions`). -/
structure TestRec where
  nodeid : String
  outcome : String
  /-- Field read as `test.get('call', {}).get('longrepr', '')`. -/
  longrepr : Option String
  deriving DecidableEq, Repr

/-- The dict returned by `run_playwright_tests`, flattened: `summary` holds
the `passed`/`failed`/`total` counters. -/
structure RunnerResult where
  ok : Bool
  error : Option String
  tests : List TestRec
  passed : Nat
  failed : Nat
  total : Nat
  deriving DecidableEq, Repr

/-- One discovered page (`discovery_result['pages']` entry). -/
structure DiscPage where
  url : String
  title : Option String
  selectors : List String
  deriving DecidableEq, Repr

/-- The discovery service's output dict. -/
structure DiscoveryData where
  pages : List DiscPage
  deriving DecidableEq, Repr

/-- One scenario descriptor (`_parse_scenarios` output entry /
`_create_fallback_scenarios` entry). -/
structure Scenario where
  id : Option String
  name : Option String
  steps : List String
  validations : List String
  target_pages : List String
  deriving DecidableEq, Repr

/-- One `generated_tests` entry built by `code_generator_node`. -/
structure GeneratedTest where
  scenario_name : String
  filename : String
  path : String
  lines : Nat
  deriving DecidableEq, Repr

/-- The `healing_result` dict written by `healing_node`
(`suggestions` kept as its length, `healed_tests`). -/
structure HealingResult where
  ok : Bool
  healed_tests : Nat
  error : Option String
  deriving DecidableEq, Repr

/-- Record form of `TestRunState` (`server/src/state.py`). -/
structure TestRunState where
  run_id : String
  url : String
  test_creation_mode : String
  execution_mode : String
  preset : String
  user_story : Option String
  max_heal_attempts : Nat
  auto_heal : Bool
  discovery_data : Option DiscoveryData
  pages_count : Nat
  elements_count : Nat
  final_story : Option String
  story_source : Option String
  story_model : Option String
  scenarios : List Scenario
  scenarios_count : Nat
  scenario_model : Option String
  generated_tests : List GeneratedTest
  tests_directory : Option String
  execution_result : Option RunnerResult
  tests_passed : Nat
  tests_failed : Nat
  tests_total : Nat
  healing_attempts : Nat
  healing_result : Option HealingResult
  is_healed : Bool
  phase : String
  status : String
  error_message : Option String
  deriving DecidableEq, Repr

/-- The `config` dict handed to `LangGraphPipeline.run`; optional keys are
read with `.get` defaults there. -/
structure RunConfig where
  url : String
  testCreationMode : Option String
  mode : Option String
  preset : Option String
  story : Option String
  maxHealAttempts : Option Nat
  autoHeal : Option Bool
  deriving DecidableEq, Repr

/-- The initial state built by `LangGraphPipeline.run`
(`server/src/pipeline_langgraph.py`, lines 27-41); fields the pipeline does
not set start at the `.get` default their readers use. -/
def initial_state (run_id : String) (cfg : RunConfig) : TestRunState where
  run_id := run_id
  url := cfg.url
  test_creation_mode := cfg.testCreationMode.getD "ai"
  execution_mode := cfg.mode.getD "headless"
  preset := cfg.preset.getD "balanced"
  user_story := cfg.story
  max_heal_attempts := cfg.maxHealAttempts.getD 3
  auto_heal := cfg.autoHeal.getD true
  discovery_data := none
  pages_count := 0
  elements_count := 0
  final_story := none
  story_source := none
  story_model := none
  scenarios := []
  scenarios_count := 0
  scenario_model := none
  generated_tests := []
  tests_directory := none
  execution_result := none
  tests_passed := 0
  tests_failed := 0
  tests_total := 0
  healing_attempts := 0
  healing_result := none
  is_healed := false
  phase := "starting"
  status := "running"
  error_message := none

/-! ### The branch predicate -/

/-- Model of `should_heal` (`server/src/workflows/ai_workflow.py`, lines 285-299).
Reads `auto_heal` (default `True`), `max_heal_attempts` (default 3),
`healing_attempts` (default 0) and `tests_failed` (default 0) from the
state; the defaults are materialised by `initial_state`. -/
def should_heal (s : TestRunState) : String :=
  if s.auto_heal = false ∨ s.tests_failed = 0 ∨ s.max_heal_attempts ≤ s.healing_attempts then
    "complete"
  else
    "heal"

theorem should_heal_eq_heal_iff (s : TestRunState) :
    should_heal s = "heal" ↔
      s.auto_heal = true ∧ 0 < s.tests_failed ∧ s.healing_attempts < s.max_heal_attempts := by
  unfold should_heal
  split
  · rename_i h
    constructor
    · intro hc
      exact absurd hc (by decide)
    · rintro ⟨ha, hf, hn⟩
      rcases h with h | h | h
      · rw [ha] at h; exact absurd h (by decide)
      · omega
      · omega
  · rename_i h
    push_neg at h
    obtain ⟨ha, hf, hn⟩ := h
    refine ⟨fun _ => ⟨?_, ?_, ?_⟩, fun _ => rfl⟩
    · cases hb : s.auto_heal
      · exact absurd hb ha
      · rfl
    · omega
    · omega

/-- C1: the branch predicate returns the heal branch exactly under
`autoHeal ∧ failedTestCount > 0 ∧ healingAttempts < maxHealAttempts`,
returns the completion branch in every other case, and in particular never
returns heal when `autoHeal` is false. -/
theorem C1_should_heal_branch (s : TestRunState) :
    (should_heal s = "heal" ↔
      s.auto_heal = true ∧ 0 < s.tests_failed ∧ s.healing_attempts < s.max_heal_attempts)
    ∧ (should_heal s ≠ "heal" → should_heal s = "complete")
    ∧ (s.auto_heal = false → should_heal s = "complete") := by
  refine ⟨should_heal_eq_heal_iff s, ?_, ?_⟩
  · intro h
    unfold should_heal at h ⊢
    by_cases hc : (s.auto_heal = false ∨ s.tests_failed = 0 ∨ s.max_heal_attempts ≤ s.healing_attempts)
    · rw [if_pos hc]
    · rw [if_neg hc] at h
      exact absurd rfl h
  · intro ha
    unfold should_heal
    rw [if_pos (Or.inl ha)]

/-- Witness for C1 at a concrete context: with `autoHeal = false` the
predicate picks the completion branch. -/
theorem C1_witness :
    (initial_state "r1"
      { url := "http://x", testCreationMode := none, mode := none, preset := none,
        story := none, maxHealAttempts := none, autoHeal := some false }).auto_heal = false ∧
    should_heal (initial_state "r1"
      { url := "http://x", testCreationMode := none, mode := none, preset := none,
        story := none, maxHealAttempts := none, autoHeal := some false }) = "complete" :=
  ⟨by decide, (C1_should_heal_branch _).2.2 (by decide)⟩

/-! ### Stage functions

Each LangGraph node is a function `TestRunState → TestRunState`; the outcome
of its external collaborator call (crawler, Ollama, Playwright runner) is an
explicit oracle argument.  Database persistence calls (`state_updater`) do
not touch the run context and are dropped. -/

/-- Outcome of `discover_with_selectors_async`. -/
inductive DiscOutcome where
  | ok (pages : List DiscPage)
  | raised (e : String)
  deriving DecidableEq, Repr

/-- Model of `discovery_node` (`server/src/agents/discovery_agent.py`, lines 13-71).
On a collaborator exception the node sets `status='failed'`,
`error_message` and an empty discovery dict. -/
def discovery_node (o : DiscOutcome) (s : TestRunState) : TestRunState :=
  match o with
  | .ok pages =>
      { s with
          discovery_data := some ⟨pages⟩
          pages_count := pages.length
          elements_count := (pages.map (fun p => p.selectors.length)).sum
          phase := "discovery_completed" }
  | .raised e =>
      { s with
          status := "failed"
          error_message := some ("Discovery failed: " ++ e)
          phase := "discovery_failed"
          discovery_data := some ⟨[]⟩
          pages_count := 0
          elements_count := 0 }

/-- Outcome of `ollama_client.generate_with_fallback` as observed by
`story_generator_node`: an ok dict, a not-ok dict (which the node turns
into a raise, caught by its own handler), or an exception. -/
inductive GenOutcome where
  | ok (model response : String)
  | notOk (error : Option String)
  | raised (e : String)
  deriving DecidableEq, Repr

/-- Model of `_create_fallback_story` (`server/src/agents/story_generator.py`). -/
def create_fallback_story (url : String) (dd : Option DiscoveryData) : String :=
  "Test the website at " ++ url ++ ". Verify that " ++
    toString ((dd.map (fun d => d.pages)).getD []).length ++
    " pages load correctly and core functionality works. Test navigation, forms, and key user interactions."

/-- Model of `story_generator_node` (`server/src/agents/story_generator.py`,
lines 11-78).  A user story longer than 20 characters (after strip) wins;
missing/empty discovery data (the empty dict written by a failed discovery
is falsy in Python) or any LLM failure produces a fallback story. -/
def story_generator_node (o : GenOutcome) (s : TestRunState) : TestRunState :=
  if pyTruthy s.user_story ∧ ((pyStrip (s.user_story.getD "")).length > 20) then
    { s with
        final_story := s.user_story
        story_source := some "user_provided"
        phase := "story_ready" }
  else if s.discovery_data = none ∨ ((s.discovery_data.map (fun d => d.pages)).getD []) = [] then
    { s with
        final_story := some ("Test the website at " ++ s.url ++ ". Verify basic functionality.")
        story_source := some "fallback"
        phase := "story_ready" }
  else
    match o with
    | .ok model response =>
        { s with
            final_story := some (pyStrip response)
            story_source := some "ai_generated"
            story_model := some model
            phase := "story_ready" }
    | .notOk _ | .raised _ =>
        { s with
            final_story := some (create_fallback_story s.url s.discovery_data)
            story_source := some "fallback"
            phase := "story_ready" }

/-- Outcome of the scenario-conversion LLM call, with the JSON response
already run through `_parse_scenarios` (a parse failure yields `[]`, which
the node treats like a raise). -/
inductive ScenOutcome where
  | ok (model : String) (parsed : List Scenario)
  | notOk (error : Option String)
  | raised (e : String)
  deriving DecidableEq, Repr

/-- Model of `_create_fallback_scenarios` (`server/src/agents/scenario_converter.py`). -/
def create_fallback_scenarios (url : String) : List Scenario :=
  [{ id := some "fallback_1"
     name := some "Basic Page Load Test"
     steps := ["Navigate to " ++ url, "Verify page loads"]
     validations := ["Page loads successfully"]
     target_pages := [url] }]

/-- Model of `scenario_converter_node` (`server/src/agents/scenario_converter.py`,
lines 12-72).  No story at all fails the context; any LLM / parsing failure
degrades to the single fallback scenario. -/
def scenario_converter_node (o : ScenOutcome) (s : TestRunState) : TestRunState :=
  if pyTruthy s.final_story = false then
    { s with
        status := "failed"
        error_message := some "No story available"
        phase := "scenario_conversion_failed" }
  else
    match o with
    | .ok model parsed =>
        if parsed = [] then
          { s with
              scenarios := create_fallback_scenarios s.url
              scenarios_count := (create_fallback_scenarios s.url).length
              scenario_model := some "fallback"
              phase := "scenarios_ready" }
        else
          { s with
              scenarios := parsed
              scenarios_count := parsed.length
              scenario_model := some model
              phase := "scenarios_ready" }
    | .notOk _ | .raised _ =>
        { s with
            scenarios := create_fallback_scenarios s.url
            scenarios_count := (create_fallback_scenarios s.url).length
            scenario_model := some "fallback"
            phase := "scenarios_ready" }

/-- Model of `_create_filename` (`server/src/agents/code_generator.py`). -/
def create_filename (name : String) : String :=
  "test_" ++
    String.mk (((name.toList.map Char.toLower).map
      (fun c => if c.isLower ∨ c.isDigit ∨ c = '_' then c else '_')).take 50) ++
    ".py"

/-- Per-scenario outcome inside `code_generator_node`'s loop.  The node
never lets one scenario's failure stop the run: an LLM failure or invalid
code is replaced by `_generate_fallback_code` output, so the observable
per-scenario outcome is either "a test file with some content was written"
(`wrote`, content = LLM-or-fallback code after `_clean_code` /
`_ensure_headless` / `_validate_code`) or "both the primary path and the
fallback retry raised" (`skipped`, filesystem errors only; the scenario is
dropped with `continue`). -/
inductive ScenCodeOutcome where
  | wrote (code : String)
  | skipped
  deriving DecidableEq, Repr

instance : Inhabited Scenario :=
  ⟨{ id := none, name := none, steps := [], validations := [], target_pages := [] }⟩

/-- Model of `code_generator_node` (`server/src/agents/code_generator.py`,
lines 14-145).  `tests_directory` is set to the parent generator dir
(`/tmp/uidai_runs/<run_id>/generator`), per the source. -/
def gen_dir_for (s : TestRunState) : String :=
  "/tmp/uidai_runs/" ++ s.run_id ++ "/generator"

/-- The `generated_tests` list built by `code_generator_node`'s
per-scenario loop. -/
def generated_tests_for (o : Nat → ScenCodeOutcome) (s : TestRunState) : List GeneratedTest :=
  (List.range s.scenarios.length).filterMap (fun i =>
    match o i with
    | .skipped => none
    | .wrote code =>
        let sc := s.scenarios.getD i default
        let filename := create_filename (sc.name.getD ("test_" ++ toString i))
        some { scenario_name := sc.name.getD ("Test " ++ toString (i + 1))
               filename := filename
               path := gen_dir_for s ++ "/tests/" ++ filename
               lines := lineCount code : GeneratedTest })

def code_generator_node (o : Nat → ScenCodeOutcome) (s : TestRunState) : TestRunState :=
  if s.scenarios = [] then
    { s with
        status := "failed"
        error_message := some "No scenarios available"
        phase := "code_generation_failed" }
  else if generated_tests_for o s = [] then
    { s with
        status := "failed"
        error_message := some "No tests generated"
        phase := "code_generation_failed" }
  else
    { s with
        generated_tests := generated_tests_for o s
        tests_directory := some (gen_dir_for s)
        phase := "code_generated" }

/-- Outcome of `run_playwright_tests` as seen by `execution_node`:
an exception, a falsy/not-ok result dict, or an ok report. -/
inductive RunnerOutcome where
  | raised (e : String)
  | bad (r : Option RunnerResult)
  | ok (r : RunnerResult)
  deriving DecidableEq, Repr

/-- The empty dict `{}` substituted for a falsy runner result. -/
def emptyRunnerResult : RunnerResult :=
  { ok := false, error := none, tests := [], passed := 0, failed := 0, total := 0 }

/-- Model of `execution_node` (`server/src/workflows/ai_workflow.py`, lines 56-144).
A missing tests directory or an exception fails the context; a not-ok
runner result only zeroes the counters and marks the phase
`execution_failed` (status untouched). -/
def execution_node (o : RunnerOutcome) (s : TestRunState) : TestRunState :=
  match s.tests_directory with
  | none =>
      { s with
          status := "failed"
          error_message := some "No tests directory"
          phase := "execution_failed"
          tests_total := 0
          tests_passed := 0
          tests_failed := 0 }
  | some _ =>
      match o with
      | .raised e =>
          { s with
              status := "failed"
              error_message := some ("Execution failed: " ++ e)
              phase := "execution_failed"
              tests_total := 0
              tests_passed := 0
              tests_failed := 0 }
      | .bad r =>
          { s with
              execution_result := some (r.getD emptyRunnerResult)
              tests_total := 0
              tests_passed := 0
              tests_failed := 0
              phase := "execution_failed" }
      | .ok r =>
          { s with
              execution_result := some r
              tests_passed := r.passed
              tests_failed := r.failed
              tests_total := r.total
              phase := "execution_completed" }

/-- Per-failed-test outcome inside `healing_node`'s loop: the test file
path does not exist (`continue`), the LLM result is neither an ok dict nor
a string (`continue`), the cleaned code is empty (`continue`), or a fixed
file was written and a suggestion recorded. -/
inductive FixAttempt where
  | fileMissing
  | genUnusable
  | cleanedEmpty
  | fixed (model : String)
  deriving DecidableEq, Repr

/-- Oracle for one `healing_node` call: `raised` aborts the whole body into
the `except` handler; otherwise `fixes i` is the outcome for the i-th
processed failed test (at most 3 are processed). -/
structure HealNodeOracle where
  raised : Option String
  fixes : Nat → FixAttempt

/-- Does this `FixAttempt` append a healing suggestion? -/
def FixAttempt.isFixed : FixAttempt → Bool
  | .fixed _ => true
  | _ => false

/-- Model of `healing_node` (`server/src/workflows/ai_workflow.py`, lines 148-273).
Every path increments `healing_attempts` by exactly one; `is_healed` is set
when there were no failed tests to heal, or when at least one fix was
written; `status` is never touched. -/
def healing_node (o : HealNodeOracle) (s : TestRunState) : TestRunState :=
  let healing_attempts := s.healing_attempts
  match s.tests_directory with
  | none =>
      { s with
          healing_attempts := healing_attempts + 1
          is_healed := false }
  | some _ =>
      match o.raised with
      | some e =>
          { s with
              healing_attempts := healing_attempts + 1
              is_healed := false
              healing_result := some { ok := false, healed_tests := 0, error := some e } }
      | none =>
          let failed_tests :=
            ((s.execution_result.map (fun r => r.tests)).getD []).filter
              (fun t => t.outcome = "failed")
          if failed_tests = [] then
            { s with
                healing_attempts := healing_attempts + 1
                is_healed := true }
          else
            let nProcessed := min failed_tests.length 3
            let nFixed :=
              ((List.range nProcessed).map o.fixes).countP (fun f => f.isFixed)
            let healed := decide (0 < nFixed)
            { s with
                healing_attempts := healing_attempts + 1
                is_healed := healed
                healing_result := some { ok := healed, healed_tests := nFixed, error := none } }

/-! ### The pipeline state machine

`create_ai_workflow` (`server/src/workflows/ai_workflow.py`, lines 18-54)
wires the nodes as
`discovery → story → scenarios → code → execute`, all edges unconditional,
then a conditional edge on `should_heal` from `execute` to `heal` or `END`,
and `heal → execute`.  Two equivalent views of that graph are used:

* `aiStageInputs` — the linear prefix as a function; it records, for each
  stage in graph order, the context the stage function is applied to
  (used for the halting / fallback claims);
* `WStep` / `WReachable` — a step relation over graph nodes, with the
  collaborator oracle chosen fresh at every step (used for the invariant
  claims, which quantify over all reachable states). -/

/-- The five stage names of the graph, plus `heal`. -/
inductive StageName where
  | discovery | story | scenarios | code | execute | heal
  deriving DecidableEq, Repr

/-- Oracle bundle for one pass over the linear prefix of the graph. -/
structure AiOracle where
  disc : DiscOutcome
  story : GenOutcome
  scen : ScenOutcome
  code : Nat → ScenCodeOutcome

/-- The input context each stage function of the linear prefix is applied
to, in graph order (the edges are unconditional, so every stage always
runs). -/
def aiStageInputs (o : AiOracle) (s0 : TestRunState) : List (StageName × TestRunState) :=
  let c1 := discovery_node o.disc s0
  let c2 := story_generator_node o.story c1
  let c3 := scenario_converter_node o.scen c2
  let c4 := code_generator_node o.code c3
  [(.discovery, s0), (.story, c1), (.scenarios, c2), (.code, c3), (.execute, c4)]

/-- Graph position of the machine. -/
inductive WNode where
  | discovery | story | scenarios | code | execute | heal | done
  deriving DecidableEq, Repr

/-- A machine configuration: graph position plus run context. -/
structure WMachine where
  node : WNode
  ctx : TestRunState

/-- One transition of the compiled LangGraph graph.  Collaborator outcomes
are chosen nondeterministically at each step, so the relation covers every
behaviour of the external services; the conditional edge out of `execute`
evaluates `should_heal` on the post-execution context, fresh on every
visit. -/
inductive WStep : WMachine → WMachine → Prop where
  | disc (o : DiscOutcome) (s : TestRunState) :
      WStep ⟨.discovery, s⟩ ⟨.story, discovery_node o s⟩
  | story (o : GenOutcome) (s : TestRunState) :
      WStep ⟨.story, s⟩ ⟨.scenarios, story_generator_node o s⟩
  | scen (o : ScenOutcome) (s : TestRunState) :
      WStep ⟨.scenarios, s⟩ ⟨.code, scenario_converter_node o s⟩
  | code (o : Nat → ScenCodeOutcome) (s : TestRunState) :
      WStep ⟨.code, s⟩ ⟨.execute, code_generator_node o s⟩
  | execHeal (o : RunnerOutcome) (s : TestRunState) :
      should_heal (execution_node o s) = "heal" →
      WStep ⟨.execute, s⟩ ⟨.heal, execution_node o s⟩
  | execDone (o : RunnerOutcome) (s : TestRunState) :
      should_heal (execution_node o s) = "complete" →
      WStep ⟨.execute, s⟩ ⟨.done, execution_node o s⟩
  | heal (o : HealNodeOracle) (s : TestRunState) :
      WStep ⟨.heal, s⟩ ⟨.execute, healing_node o s⟩

/-- Reachability along graph transitions. -/
def WReachable : WMachine → WMachine → Prop :=
  Relation.ReflTransGen WStep

/-- The machine a fresh run starts in (`LangGraphPipeline.run` builds the
initial state and the graph entry point is `discovery`). -/
def initMachine (run_id : String) (cfg : RunConfig) : WMachine :=
  ⟨.discovery, initial_state run_id cfg⟩

/-- Outcome of `workflow.ainvoke` as seen by `LangGraphPipeline.run`. -/
inductive WorkflowOutcome where
  | finished (fs : TestRunState)
  | raised (e : String)

/-- Model of `LangGraphPipeline.run` after the workflow returns
(`server/src/pipeline_langgraph.py`, lines 60-89): a normal return is
stamped `status='completed'` unconditionally; an exception produces a
failed copy of the initial state. -/
def pipeline_run (run_id : String) (cfg : RunConfig) (w : WorkflowOutcome) : TestRunState :=
  match w with
  | .finished fs => { fs with status := "completed" }
  | .raised e =>
      { initial_state run_id cfg with
          status := "failed"
          error_message := some e }

/-! ### Healer: patch application over an explicit artifact directory

The artifact directory is modeled as a finite map from file names (paths
relative to `generated_tests_dir`) to file contents; `rename`, `unlink` and
`write_text` are the primitive mutations `apply_patch` performs.  Python's
`ast.parse` check (`validate_python_code`) is an external judgment on a
string and is passed in as an oracle `astParses`; the test-marker check is
the literal substring test of the source. -/

/-- An artifact directory: file name to file content. -/
def FsDir := String → Option String

/-- Python `path.write_text(content)`. -/
def FsDir.write (d : FsDir) (p c : String) : FsDir :=
  fun q => if q = p then some c else d q

/-- Python `path.unlink()`. -/
def FsDir.unlink (d : FsDir) (p : String) : FsDir :=
  fun q => if q = p then none else d q

/-- Python `src.rename(dst)` (move). -/
def FsDir.rename (d : FsDir) (src dst : String) : FsDir :=
  fun q => if q = dst then d src else if q = src then none else d q

/-- The patch dict handed to `apply_patch`: the keys it reads. -/
structure PatchDict where
  file : Option String
  content : Option String
  fix : Option String
  patch : Option String
  deriving DecidableEq, Repr

/-- Resolution `patch.get("content") or patch.get("fix") or patch.get("patch")`
(Python `or`: `None` and `""` are falsy, and an all-falsy chain returns the
last operand, so a present-but-empty last key still yields `None` here only
when all three are absent-or-empty-with-none-last; `pyOr` reproduces this
exactly). -/
def PatchDict.resolvedContent (p : PatchDict) : Option String :=
  pyOr p.content (pyOr p.fix p.patch)

/-- Model of the healer's Python-code validation check (ast-based): keeps only code accepted by `ast.parse`; the
parser itself is the oracle `astParses`. -/
def validate_python_code (astParses : String → Bool) (code : String) : Bool :=
  astParses code

/-- Lines 242-251 of `apply_patch`: back up an existing target by renaming
it to `file + ".bak"` (a stale backup is unlinked first); the flag records
whether the `backup` local was assigned. -/
def apply_patch_backup_step (d0 : FsDir) (file : String) : FsDir × Bool :=
  match d0 file with
  | some _ =>
      let backup := file ++ ".bak"
      let dA := if (d0 backup).isSome then d0.unlink backup else d0
      (dA.rename file backup, true)
  | none => (d0, false)

/-- Lines 259-262 and 267-269 of `apply_patch`: put the backup back over
the target (`if backup.exists(): backup.rename(file_path)`); a no-op when
no backup was made (Python instead raises `NameError` there, handled by
the caller of this step). -/
def apply_patch_restore_step (d : FsDir) (file : String) (hasBackup : Bool) : FsDir :=
  if hasBackup then
    (if (d (file ++ ".bak")).isSome then d.rename (file ++ ".bak") file else d)
  else d

/-- The body of `apply_patch` once the target file name is resolved. -/
def apply_patch_resolved (astParses : String → Bool) (p : PatchDict) (file : String)
    (d0 : FsDir) : FsDir × Except String String :=
  let st := apply_patch_backup_step d0 file
  match p.resolvedContent with
  | none => (st.1, .error "patch missing key: content, fix or patch")
  | some content =>
      if validate_python_code astParses content = false then
        (apply_patch_restore_step st.1 file st.2,
         .error (if st.2 = true then "Patch content has syntax errors"
                 else "NameError: name is not defined: backup"))
      else if strContains content "def test_" = false ∧
              strContains content "async def test_" = false then
        (apply_patch_restore_step st.1 file st.2,
         .error (if st.2 = true then "Patch does not contain valid test function"
                 else "NameError: name is not defined: backup"))
      else
        (st.1.write file content, .ok file)

/-- Model of `apply_patch` (`server/src/tools/healer.py`, lines 229-276), returning
the mutated directory together with the Python result: `.ok file` for the
returned ok dict, `.error msg` for a raised exception.  `globTestFiles`
stands for the `glob("test_*.py")` listing (used only when the patch names
no file); the backup name is `file + ".bak"` exactly as
`with_suffix(suffix + ".bak")` produces.  When the target file does not
exist, the `backup` local is never assigned and the validation-failure
paths raise `NameError` at `backup.exists()` — still an exception, modeled
as an `.error` with a NameError message. -/
def apply_patch (astParses : String → Bool) (p : PatchDict) (globTestFiles : List String)
    (d0 : FsDir) : FsDir × Except String String :=
  match pyOr p.file none with
  | some f => apply_patch_resolved astParses p f d0
  | none =>
      match globTestFiles with
      | [] => (d0, .error "No test files found in directory")
      | f :: _ => apply_patch_resolved astParses p (pathName f) d0

/-! ### The standalone healing loop (`auto_heal_and_rerun`)

`server/src/tools/auto_healer.py`.  Suggestion retrieval and the re-run are
external calls (oracles, per attempt number); the snapshot/restore of the
artifact directory and the call into `apply_patch` are modeled exactly.
Confidence scores are modeled as rationals (the source compares Python
floats only through `sorted`). -/

/-- One healing suggestion (`heal_result["suggestions"]` entry; key
presence maps to `some`). -/
structure Suggestion where
  file : Option String
  fix : Option String
  code : Option String
  patch : Option String
  issue : Option String
  priority : Option String
  confidence : ℚ
  deriving DecidableEq, Repr

/-- Model of `select_best_suggestion` (`auto_healer.py`, lines 198-212): stable sort
by descending confidence, take the first; an empty list yields the empty
dict (modeled as `none`). -/
def select_best_suggestion (suggestions : List Suggestion) : Option Suggestion :=
  match suggestions.mergeSort (fun a b => b.confidence ≤ a.confidence) with
  | [] => none
  | best :: _ => some best

/-- Outcome of `get_heal_suggestions` for one attempt. -/
inductive SuggestOutcome where
  | raised (e : String)
  | returned (ok : Bool) (suggestions : List Suggestion)

/-- Outcome of the post-patch `run_playwright_tests` for one attempt. -/
inductive RerunOutcome where
  | raised (e : String)
  | returned (tests : List TestRec) (failed passed total : Nat)

/-- Environment of the loop: per-attempt collaborator outcomes, the
`ast.parse` judgment, and the `glob` listing `apply_patch` would see. -/
structure LoopOracle where
  suggest : Nat → SuggestOutcome
  rerun : Nat → RerunOutcome
  astParses : String → Bool
  glob : Nat → List String

/-- The patch dict built for the selected suggestion
(`auto_healer.py`, lines 82-102): target file from the suggestion, else the
basename of the first generated file, else `"test_auto.py"`; content from
`fix` (default `""`), overridden by a present `code`, else `patch` key. -/
def build_patch_dict (best : Suggestion) (generated_files : List String) : PatchDict :=
  let test_file :=
    if pyTruthy best.file = false then
      match generated_files with
      | [] => best.file
      | g :: _ => some (pathName g)
    else best.file
  let content0 := best.fix.getD ""
  let content1 :=
    match best.code with
    | some c => c
    | none =>
        match best.patch with
        | some c => c
        | none => content0
  { file := some (match pyOr test_file none with | some f => f | none => "test_auto.py")
    content := some content1
    fix := none
    patch := none }

/-- Result of one loop iteration (`for attempt_num in range(1, max+1)`
body): `suggestRaised` and `applyFailed`/`rerunRaised` are `continue`s that
record no attempt, `noSuggestions` is the `break`, `rerunDone` appends an
attempt record.  The carried value is the artifact directory after the
iteration: `applyFailed` restores the pre-attempt snapshot
(`rmtree` + `copytree` from the backup made at the top of the iteration). -/
inductive AttemptStep where
  | suggestRaised
  | noSuggestions
  | applyFailed (d : FsDir)
  | rerunRaised (d : FsDir)
  | rerunDone (d : FsDir) (tests : List TestRec) (failed passed total : Nat)

/-- One iteration of the healing loop body (`auto_healer.py`,
lines 44-185), for attempt number `n` on artifact directory `d`. -/
def heal_attempt (o : LoopOracle) (generated_files : List String) (n : Nat)
    (d : FsDir) : AttemptStep :=
  match o.suggest n with
  | .raised _ => .suggestRaised
  | .returned ok suggestions =>
      if ok = false ∨ suggestions = [] then .noSuggestions
      else
        match select_best_suggestion suggestions with
        | none => .noSuggestions
        | some best =>
            let patch := build_patch_dict best generated_files
            match apply_patch o.astParses patch (o.glob n) d with
            | (_, .error _) => .applyFailed d
            | (d1, .ok _) =>
                match o.rerun n with
                | .raised _ => .rerunRaised d1
                | .returned tests failed passed total => .rerunDone d1 tests failed passed total

/-- The dict `auto_heal_and_rerun` returns, plus the final artifact
directory. -/
structure HealOut where
  ok : Bool
  healed : Bool
  healing_attempts : Nat
  finalDir : FsDir

/-- The loop of `auto_heal_and_rerun`, recursing over the remaining
attempt numbers; `n` is the current `attempt_num`, `recorded` the length of
the `attempts` list so far, `failedCount` the current `len(failed_tests)`
used for the improvement check. -/
def healLoopAux (o : LoopOracle) (generated_files : List String) :
    Nat → Nat → Nat → Nat → FsDir → HealOut
  | 0, _, recorded, _, d =>
      { ok := true, healed := false, healing_attempts := recorded, finalDir := d }
  | remaining + 1, n, recorded, failedCount, d =>
      match heal_attempt o generated_files n d with
      | .suggestRaised => healLoopAux o generated_files remaining (n + 1) recorded failedCount d
      | .noSuggestions =>
          { ok := true, healed := false, healing_attempts := recorded, finalDir := d }
      | .applyFailed d1 => healLoopAux o generated_files remaining (n + 1) recorded failedCount d1
      | .rerunRaised d1 => healLoopAux o generated_files remaining (n + 1) recorded failedCount d1
      | .rerunDone d1 tests failed passed _ =>
          if failed = 0 ∧ 0 < passed then
            { ok := true, healed := true, healing_attempts := n, finalDir := d1 }
          else
            healLoopAux o generated_files remaining (n + 1) (recorded + 1)
              (if failed < failedCount then (tests.filter (fun t => t.outcome = "failed")).length
               else failedCount) d1

/-- Model of `auto_heal_and_rerun` (`server/src/tools/auto_healer.py`, lines
13-196): run the loop for attempt numbers `1 .. max_attempts`; on success
`healing_attempts` is the successful attempt number, otherwise the number
of recorded attempts. -/
def auto_heal_and_rerun (o : LoopOracle) (generated_files : List String)
    (failed_tests : List TestRec) (max_attempts : Nat) (d : FsDir) : HealOut :=
  healLoopAux o generated_files max_attempts 1 0 failed_tests.length d

/-- What `main.py` (lines 244-254) does with the healing outcome:
`healed` marks the run completed, otherwise failed. -/
def main_status_after_healing (h : HealOut) : String :=
  if h.healed then "completed" else "failed"

/-! ### Run queue manager

`server/src/queue_manager.py`, `RunQueueManager`.  The manager's state is
the FIFO `asyncio.Queue` (run ids; the per-run config does not affect the
claims), the `active_runs` dict (kept as the list of its keys, in insertion
order) and the database's per-run `status` column, the only place run
status lives.

Concurrency note for the step relation: `process_queue` wraps each loop
iteration in `async with self.semaphore`, i.e. the permit is acquired at
the top of the iteration and released at its end (after `create_task`-ing
`_execute_run` and a 1-second sleep) — not when the spawned run finishes.
Since `is_processing` guarantees a single sequential `process_queue` loop,
the acquire always follows the previous iteration's release and therefore
never blocks; a dequeue step is enabled whenever the queue is non-empty,
regardless of how many spawned runs are still active.  `_execute_run`
removes its run id from `active_runs` (and writes a terminal status) only
when the pipeline finishes, which is a separate, arbitrarily later step. -/

/-- Queue manager state: `max_concurrent`, the pending FIFO queue, the
keys of `active_runs`, and the database status per run id (`none` = no
such `TestRun` row). -/
structure QMState where
  max_concurrent : Nat
  queue : List String
  active : List String
  db : String → Option String

/-- Update `run.status = st; db.commit()` guarded by `if run:` — a no-op when the
row does not exist. -/
def setStatus (db : String → Option String) (rid st : String) : String → Option String :=
  fun r => if r = rid then (db rid).map (fun _ => st) else db r

/-- Model of `enqueue_run` (lines 31-59): append to the queue and mark the row
`queued`. -/
def enqueueStep (s : QMState) (rid : String) : QMState :=
  { s with
      queue := s.queue ++ [rid]
      db := setStatus s.db rid "queued" }

/-- One iteration of the `process_queue` loop (lines 70-96): pop the head
entry, mark it `running` (no cancellation check), add it to `active_runs`
and spawn its pipeline.  Identity when the queue is empty (the loop
breaks). -/
def dispatchStep (s : QMState) : QMState :=
  match s.queue with
  | [] => s
  | rid :: rest =>
      { s with
          queue := rest
          db := setStatus s.db rid "running"
          active := s.active ++ [rid] }

/-- The tail of `_execute_run` (lines 122-159): the pipeline has reached a
terminal state `final` (`"completed"` or `"failed"`), the row is updated
and the run id is removed from `active_runs`. -/
def completeStep (s : QMState) (rid final : String) : QMState :=
  { s with
      active := s.active.erase rid
      db := setStatus s.db rid final }

/-- Model of `cancel_run` (lines 201-214): if the row exists with status `queued` or
`running`, mark it `cancelled` and return `True`; otherwise return `False`.
The pending queue is not touched. -/
def cancel_run (s : QMState) (rid : String) : QMState × Bool :=
  match s.db rid with
  | some st =>
      if st = "queued" ∨ st = "running" then
        ({ s with db := setStatus s.db rid "cancelled" }, true)
      else (s, false)
  | none => (s, false)

/-- Interleaving of queue-manager operations: enqueues, dispatcher
iterations, run completions and cancellations, in any order the event loop
can produce. -/
inductive QMStep : QMState → QMState → Prop where
  | enqueue (s : QMState) (rid : String) : QMStep s (enqueueStep s rid)
  | dispatch (s : QMState) : s.queue ≠ [] → QMStep s (dispatchStep s)
  | complete (s : QMState) (rid final : String) :
      rid ∈ s.active → (final = "completed" ∨ final = "failed") →
      QMStep s (completeStep s rid final)
  | cancel (s : QMState) (rid : String) : QMStep s (cancel_run s rid).1

/-- Reachability over queue-manager steps. -/
def QMReachable : QMState → QMState → Prop :=
  Relation.ReflTransGen QMStep

/-- A fresh manager (`__init__`, lines 22-29): empty queue, no active
runs. -/
def initQM (max_concurrent : Nat) (db : String → Option String) : QMState :=
  { max_concurrent := max_concurrent, queue := [], active := [], db := db }

/-! ### Preservation lemmas for the stage functions -/

theorem discovery_node_heal_fields (o : DiscOutcome) (s : TestRunState) :
    (discovery_node o s).healing_attempts = s.healing_attempts ∧
    (discovery_node o s).max_heal_attempts = s.max_heal_attempts := by
  cases o <;> simp [discovery_node]

theorem story_node_heal_fields (o : GenOutcome) (s : TestRunState) :
    (story_generator_node o s).healing_attempts = s.healing_attempts ∧
    (story_generator_node o s).max_heal_attempts = s.max_heal_attempts := by
  unfold story_generator_node
  split
  · simp
  · split
    · simp
    · cases o <;> simp

theorem scenario_node_heal_fields (o : ScenOutcome) (s : TestRunState) :
    (scenario_converter_node o s).healing_attempts = s.healing_attempts ∧
    (scenario_converter_node o s).max_heal_attempts = s.max_heal_attempts := by
  unfold scenario_converter_node
  split
  · simp
  · cases o with
    | ok model parsed => dsimp only; split <;> simp
    | notOk e => simp
    | raised e => simp

theorem code_node_heal_fields (o : Nat → ScenCodeOutcome) (s : TestRunState) :
    (code_generator_node o s).healing_attempts = s.healing_attempts ∧
    (code_generator_node o s).max_heal_attempts = s.max_heal_attempts := by
  unfold code_generator_node
  split
  · simp
  · split <;> simp

theorem execution_node_heal_fields (o : RunnerOutcome) (s : TestRunState) :
    (execution_node o s).healing_attempts = s.healing_attempts ∧
    (execution_node o s).max_heal_attempts = s.max_heal_attempts := by
  unfold execution_node
  cases s.tests_directory
  · simp
  · cases o <;> simp

theorem healing_node_heal_fields (o : HealNodeOracle) (s : TestRunState) :
    (healing_node o s).healing_attempts = s.healing_attempts + 1 ∧
    (healing_node o s).max_heal_attempts = s.max_heal_attempts ∧
    (healing_node o s).status = s.status := by
  unfold healing_node
  cases s.tests_directory
  · simp
  · dsimp only
    cases o.raised
    · dsimp only
      split
      · simp
      · simp
    · simp

/-! ### The healing-budget invariant (C2) -/

/-- Invariant carried across the graph: the attempt counter is within
budget everywhere, and strictly below budget whenever the machine sits at
the heal node (which is entered only through `should_heal`). -/
def WInv (m : WMachine) : Prop :=
  m.ctx.healing_attempts ≤ m.ctx.max_heal_attempts ∧
  (m.node = .heal → m.ctx.healing_attempts < m.ctx.max_heal_attempts)

theorem wstep_preserves_inv {m m' : WMachine} (h : WStep m m') (hi : WInv m) : WInv m' := by
  cases h with
  | disc o s =>
      have hp := discovery_node_heal_fields o s
      exact ⟨by rw [hp.1, hp.2]; exact hi.1, by intro hc; exact absurd hc (by simp)⟩
  | story o s =>
      have hp := story_node_heal_fields o s
      exact ⟨by rw [hp.1, hp.2]; exact hi.1, by intro hc; exact absurd hc (by simp)⟩
  | scen o s =>
      have hp := scenario_node_heal_fields o s
      exact ⟨by rw [hp.1, hp.2]; exact hi.1, by intro hc; exact absurd hc (by simp)⟩
  | code o s =>
      have hp := code_node_heal_fields o s
      exact ⟨by rw [hp.1, hp.2]; exact hi.1, by intro hc; exact absurd hc (by simp)⟩
  | execHeal o s hguard =>
      have hlt := ((should_heal_eq_heal_iff (execution_node o s)).mp hguard).2.2
      exact ⟨Nat.le_of_lt hlt, fun _ => hlt⟩
  | execDone o s hguard =>
      have hp := execution_node_heal_fields o s
      exact ⟨by rw [hp.1, hp.2]; exact hi.1, by intro hc; exact absurd hc (by simp)⟩
  | heal o s =>
      have hp := healing_node_heal_fields o s
      have hlt : s.healing_attempts < s.max_heal_attempts := hi.2 rfl
      exact ⟨by rw [hp.1, hp.2.1]; omega, by intro hc; exact absurd hc (by simp)⟩

theorem wreachable_inv {m0 m : WMachine} (h : WReachable m0 m) (h0 : WInv m0) : WInv m := by
  induction h with
  | refl => exact h0
  | tail _ step ih => exact wstep_preserves_inv step ih

theorem healLoopAux_bound (o : LoopOracle) (gf : List String) (maxA : Nat) :
    ∀ (remaining n recorded fc : Nat) (d : FsDir),
      recorded < n → n + remaining ≤ maxA + 1 →
      (healLoopAux o gf remaining n recorded fc d).healing_attempts ≤ maxA := by
  intro remaining
  induction remaining with
  | zero =>
      intro n recorded fc d hrec hle
      simp only [healLoopAux]
      omega
  | succ r ih =>
      intro n recorded fc d hrec hle
      simp only [healLoopAux]
      cases hA : heal_attempt o gf n d with
      | suggestRaised => exact ih (n + 1) recorded fc _ (by omega) (by omega)
      | noSuggestions => dsimp only; omega
      | applyFailed d1 => exact ih (n + 1) recorded fc d1 (by omega) (by omega)
      | rerunRaised d1 => exact ih (n + 1) recorded fc d1 (by omega) (by omega)
      | rerunDone d1 tests failed passed total =>
          dsimp only
          split
          · dsimp only; omega
          · exact ih (n + 1) (recorded + 1) _ d1 (by omega) (by omega)

/-- C2: for every budget `N`, the healing machinery never exceeds `N`
attempts — in the graph, `healing_attempts ≤ max_heal_attempts` holds in
every state reachable from a fresh run, and the standalone
`auto_heal_and_rerun` loop reports at most `max_attempts` attempts. -/
theorem C2_healing_budget :
    (∀ (run_id : String) (cfg : RunConfig) (m : WMachine),
        WReachable (initMachine run_id cfg) m →
        m.ctx.healing_attempts ≤ m.ctx.max_heal_attempts)
    ∧ (∀ (o : LoopOracle) (gf : List String) (ft : List TestRec) (maxA : Nat) (d : FsDir),
        (auto_heal_and_rerun o gf ft maxA d).healing_attempts ≤ maxA) := by
  constructor
  · intro run_id cfg m hreach
    have h0 : WInv (initMachine run_id cfg) := by
      constructor
      · exact Nat.zero_le _
      · intro hc
        exact absurd hc (by simp [initMachine])
    exact (wreachable_inv hreach h0).1
  · intro o gf ft maxA d
    exact healLoopAux_bound o gf maxA maxA 1 0 ft.length d (by omega) (by omega)

/-- Demo collaborator environment for witnesses. -/
def demoLoopOracle : LoopOracle where
  suggest := fun _ => .returned false []
  rerun := fun _ => .raised "unreachable"
  astParses := fun _ => false
  glob := fun _ => []

/-- Demo empty artifact directory. -/
def demoDir : FsDir := fun _ => none

/-- Demo run configuration (all optional keys absent). -/
def demoCfg : RunConfig where
  url := "http://example.com"
  testCreationMode := none
  mode := none
  preset := none
  story := none
  maxHealAttempts := none
  autoHeal := none

/-- Witness for C2 at concrete inputs: the initial machine itself is
reachable, and a concrete three-attempt loop stays within budget. -/
theorem C2_witness :
    (initMachine "r1" demoCfg).ctx.healing_attempts ≤
      (initMachine "r1" demoCfg).ctx.max_heal_attempts ∧
    (auto_heal_and_rerun demoLoopOracle [] [] 3 demoDir).healing_attempts ≤ 3 :=
  ⟨C2_healing_budget.1 "r1" demoCfg (initMachine "r1" demoCfg) Relation.ReflTransGen.refl,
   C2_healing_budget.2 demoLoopOracle [] [] 3 demoDir⟩

/-! ### Queue manager traces (C3, C4)

The failing interleavings below are realizable in the source: the
dispatcher's semaphore permit is released at the end of each loop
iteration (after `asyncio.sleep(1)`), so two dispatch iterations can run
back-to-back while both spawned `_execute_run` tasks are still awaiting
the pipeline. -/

/-- Database fixture: two pre-created run rows. -/
def qmDemoDb : String → Option String :=
  fun r => if r = "r1" ∨ r = "r2" then some "pending" else none

def qmS1 : QMState := enqueueStep (initQM 1 qmDemoDb) "r1"

def qmS2 : QMState := enqueueStep qmS1 "r2"

def qmS3 : QMState := dispatchStep qmS2

def qmS4 : QMState := dispatchStep qmS3

/-- C3: with `maxConcurrent = 1`, two back-to-back dispatcher iterations
(realizable because the semaphore permit is released each iteration, not
on run completion) reach a state with two active runs — the claimed
invariant `activeCount ≤ maxConcurrent` is violated by the code. -/
theorem C3_concurrency_bound_violated :
    QMReachable (initQM 1 qmDemoDb) qmS4 ∧
    qmS4.max_concurrent = 1 ∧ qmS4.active = ["r1", "r2"] := by
  refine ⟨?_, rfl, rfl⟩
  have h1 : QMStep (initQM 1 qmDemoDb) qmS1 := QMStep.enqueue _ "r1"
  have h2 : QMStep qmS1 qmS2 := QMStep.enqueue _ "r2"
  have h3 : QMStep qmS2 qmS3 := QMStep.dispatch _ (by decide)
  have h4 : QMStep qmS3 qmS4 := QMStep.dispatch _ (by decide)
  exact Relation.ReflTransGen.tail
    (Relation.ReflTransGen.tail
      (Relation.ReflTransGen.tail
        (Relation.ReflTransGen.tail Relation.ReflTransGen.refl h1) h2) h3) h4

/-- Database fixture: one pre-created run row. -/
def qmDb4 : String → Option String :=
  fun r => if r = "r1" then some "pending" else none

def qmT1 : QMState := enqueueStep (initQM 1 qmDb4) "r1"

def qmT2 : QMState := (cancel_run qmT1 "r1").1

def qmT3 : QMState := dispatchStep qmT2

/-- C4: cancelling a queued run returns `True` and marks it `cancelled`,
but the entry stays in the pending queue, and the next dispatcher
iteration starts it anyway: its status becomes `running` and it joins the
active set — the claimed drop-from-queue / never-dispatched behaviour is
violated by the code. -/
theorem C4_cancelled_run_dispatched :
    (cancel_run qmT1 "r1").2 = true ∧
    qmT2.db "r1" = some "cancelled" ∧
    qmT2.queue = ["r1"] ∧
    QMReachable (initQM 1 qmDb4) qmT3 ∧
    qmT3.db "r1" = some "running" ∧
    qmT3.active = ["r1"] := by
  refine ⟨by decide, by decide, rfl, ?_, by decide, rfl⟩
  have h1 : QMStep (initQM 1 qmDb4) qmT1 := QMStep.enqueue _ "r1"
  have h2 : QMStep qmT1 qmT2 := QMStep.cancel _ "r1"
  have h3 : QMStep qmT2 qmT3 := QMStep.dispatch _ (by decide)
  exact Relation.ReflTransGen.tail
    (Relation.ReflTransGen.tail
      (Relation.ReflTransGen.tail Relation.ReflTransGen.refl h1) h2) h3


/-! ### Stage failure modes and fallbacks (C5, C8) -/

/-- Every output of `discovery_node` either keeps the input status or is a
flagged failure (status `failed` with `error_message` set). -/
theorem discovery_node_status_cases (o : DiscOutcome) (s : TestRunState) :
    (discovery_node o s).status = s.status ∨
    ((discovery_node o s).status = "failed" ∧ (discovery_node o s).error_message ≠ none) := by
  cases o with
  | ok pages => left; simp [discovery_node]
  | raised e => right; constructor <;> simp [discovery_node]

/-- Every output of `scenario_converter_node` either keeps the input status
or is a flagged failure. -/
theorem scenario_node_status_cases (o : ScenOutcome) (s : TestRunState) :
    (scenario_converter_node o s).status = s.status ∨
    ((scenario_converter_node o s).status = "failed" ∧
      (scenario_converter_node o s).error_message ≠ none) := by
  unfold scenario_converter_node
  split
  · right; constructor <;> simp
  · cases o with
    | ok model parsed =>
        dsimp only
        split
        · left; simp
        · left; simp
    | notOk e => left; simp
    | raised e => left; simp

/-- Every output of `code_generator_node` either keeps the input status or
is a flagged failure. -/
theorem code_node_status_cases (o : Nat → ScenCodeOutcome) (s : TestRunState) :
    (code_generator_node o s).status = s.status ∨
    ((code_generator_node o s).status = "failed" ∧
      (code_generator_node o s).error_message ≠ none) := by
  unfold code_generator_node
  split
  · right; constructor <;> simp
  · split
    · right; constructor <;> simp
    · left; simp

/-- Every output of `execution_node` either keeps the input status or is a
flagged failure. -/
theorem execution_node_status_cases (o : RunnerOutcome) (s : TestRunState) :
    (execution_node o s).status = s.status ∨
    ((execution_node o s).status = "failed" ∧
      (execution_node o s).error_message ≠ none) := by
  unfold execution_node
  cases s.tests_directory with
  | none => right; constructor <;> simp
  | some t =>
      cases o with
      | raised e => right; constructor <;> simp
      | bad r => left; simp
      | ok r => left; simp

/-- The node `story_generator_node` never changes the status. -/
theorem story_node_status_eq (o : GenOutcome) (s : TestRunState) :
    (story_generator_node o s).status = s.status := by
  unfold story_generator_node
  split
  · simp
  · split
    · simp
    · cases o <;> simp

/-- Demo initial state for a fresh run. -/
def demoS0 : TestRunState := initial_state "r1" demoCfg

/-- Collaborator environment in which discovery raises. -/
def demoFailOracle : AiOracle where
  disc := .raised "connection refused"
  story := .raised "ollama down"
  scen := .raised "ollama down"
  code := fun _ => .wrote "async def test_fallback(): pass"

/-- The failed context a raising discovery produces. -/
def demoFailedC1 : TestRunState := discovery_node (.raised "connection refused") demoS0

/-- C5 counterexample: after discovery fails (`status='failed'`), the graph
still applies the story stage to the failed context — the machine does not
halt on stage failure. -/
theorem C5_counterexample_no_halt :
    demoFailedC1.status = "failed" ∧
    (StageName.story, demoFailedC1) ∈ aiStageInputs demoFailOracle demoS0 := by
  refine ⟨rfl, ?_⟩
  show _ ∈ [_, _, _, _, _]
  exact List.mem_cons_of_mem _ (List.mem_cons_self _ _)

/-- C5 amended: a stage that cannot proceed sets `status='failed'` together
with `errorMessage` (its exceptions are caught, never re-raised), and the
story stage never fails at all; but the graph's edges are unconditional, so
the machine applies every later stage regardless of a failed status instead
of halting. -/
theorem C5_amended_failed_flagged_not_halting :
    (∀ (o : DiscOutcome) (s : TestRunState),
        s.status ≠ "failed" → (discovery_node o s).status = "failed" →
        (discovery_node o s).error_message ≠ none)
    ∧ (∀ (o : ScenOutcome) (s : TestRunState),
        s.status ≠ "failed" → (scenario_converter_node o s).status = "failed" →
        (scenario_converter_node o s).error_message ≠ none)
    ∧ (∀ (o : Nat → ScenCodeOutcome) (s : TestRunState),
        s.status ≠ "failed" → (code_generator_node o s).status = "failed" →
        (code_generator_node o s).error_message ≠ none)
    ∧ (∀ (o : RunnerOutcome) (s : TestRunState),
        s.status ≠ "failed" → (execution_node o s).status = "failed" →
        (execution_node o s).error_message ≠ none)
    ∧ (∀ (o : GenOutcome) (s : TestRunState), (story_generator_node o s).status = s.status)
    ∧ (∀ (o : AiOracle) (s0 : TestRunState),
        (aiStageInputs o s0).map Prod.fst =
          [.discovery, .story, .scenarios, .code, .execute]) := by
  refine ⟨?_, ?_, ?_, ?_, story_node_status_eq, fun o s0 => rfl⟩
  · intro o s hs hf
    rcases discovery_node_status_cases o s with h | h
    · exact absurd (h ▸ hf) hs
    · exact h.2
  · intro o s hs hf
    rcases scenario_node_status_cases o s with h | h
    · exact absurd (h ▸ hf) hs
    · exact h.2
  · intro o s hs hf
    rcases code_node_status_cases o s with h | h
    · exact absurd (h ▸ hf) hs
    · exact h.2
  · intro o s hs hf
    rcases execution_node_status_cases o s with h | h
    · exact absurd (h ▸ hf) hs
    · exact h.2

/-- Witness for C5's amended statement at concrete inputs. -/
theorem C5_amended_witness :
    demoS0.status ≠ "failed" ∧
    (discovery_node (.raised "connection refused") demoS0).status = "failed" ∧
    (discovery_node (.raised "connection refused") demoS0).error_message ≠ none :=
  ⟨by decide, rfl,
   C5_amended_failed_flagged_not_halting.1 (.raised "connection refused") demoS0
     (by decide) rfl⟩

/-- A `filterMap` whose function hits `some` on every element of the list
keeps the length. -/
theorem filterMap_length_of_forall_isSome {α β : Type} (f : α → Option β) :
    ∀ (l : List α), (∀ a ∈ l, (f a).isSome) → (l.filterMap f).length = l.length := by
  intro l
  induction l with
  | nil => intro _; rfl
  | cons x xs ih =>
      intro h
      rw [List.filterMap_cons]
      cases hx : f x with
      | none =>
          have := h x (List.mem_cons_self x xs)
          rw [hx] at this
          exact absurd this (by simp)
      | some b =>
          simp only [List.length_cons]
          rw [ih (fun a ha => h a (List.mem_cons_of_mem _ ha))]

/-- C8 counterexample: when the discovery collaborator raises, the
discovery stage does not substitute a conservative fallback output — it
marks the context failed (`status='failed'`, `errorMessage` set, empty
discovery dict), the machine's halting signal under the transition
contract. -/
theorem C8_counterexample_discovery_marks_failed :
    demoFailedC1.status = "failed" ∧
    demoFailedC1.error_message = some "Discovery failed: connection refused" ∧
    demoFailedC1.discovery_data = some ⟨[]⟩ ∧
    demoFailedC1.pages_count = 0 :=
  ⟨rfl, rfl, rfl, rfl⟩

/-- C8 amended: the story, scenario and code-generation stages degrade to
fallback outputs without failing the context (story always produces a
story; scenario conversion always yields a non-empty scenario list when a
story exists; code generation writes a test per scenario when the
filesystem cooperates); discovery, by contrast, marks the context failed
when its collaborator raises.  The run still reaches the execute stage in
every case, because the graph's edges are unconditional. -/
theorem C8_amended_upstream_fallbacks :
    (∀ (o : GenOutcome) (s : TestRunState),
        (story_generator_node o s).status = s.status ∧
        (story_generator_node o s).final_story ≠ none)
    ∧ (∀ (o : ScenOutcome) (s : TestRunState),
        pyTruthy s.final_story = true →
        (scenario_converter_node o s).status = s.status ∧
        (scenario_converter_node o s).scenarios ≠ [])
    ∧ (∀ (o : Nat → ScenCodeOutcome) (s : TestRunState),
        s.scenarios ≠ [] → (∀ i, o i ≠ .skipped) →
        (code_generator_node o s).status = s.status ∧
        (code_generator_node o s).generated_tests.length = s.scenarios.length ∧
        (code_generator_node o s).tests_directory = some (gen_dir_for s))
    ∧ (∀ (e : String) (s : TestRunState), (discovery_node (.raised e) s).status = "failed")
    ∧ (∀ (o : AiOracle) (s0 : TestRunState),
        ∃ c, (StageName.execute, c) ∈ aiStageInputs o s0) := by
  refine ⟨?_, ?_, ?_, ?_, ?_⟩
  · intro o s
    unfold story_generator_node
    split
    · rename_i h
      constructor
      · simp
      · cases hu : s.user_story with
        | none => rw [hu] at h; exact absurd h.1 (by simp [pyTruthy])
        | some u => simp [hu]
    · split
      · simp
      · cases o <;> simp
  · intro o s hstory
    unfold scenario_converter_node
    rw [if_neg (by rw [hstory]; decide)]
    cases o with
    | ok model parsed =>
        dsimp only
        split
        · constructor
          · simp
          · simp [create_fallback_scenarios]
        · rename_i hp
          constructor
          · simp
          · simpa using hp
    | notOk e =>
        constructor
        · simp
        · simp [create_fallback_scenarios]
    | raised e =>
        constructor
        · simp
        · simp [create_fallback_scenarios]
  · intro o s hscen ho
    have hlen : (generated_tests_for o s).length = s.scenarios.length := by
      unfold generated_tests_for
      rw [filterMap_length_of_forall_isSome _ _ ?_, List.length_range]
      intro i _
      cases hoi : o i with
      | skipped => exact absurd hoi (ho i)
      | wrote code => simp
    have hne : generated_tests_for o s ≠ [] := by
      intro hempty
      rw [hempty] at hlen
      exact hscen (List.eq_nil_of_length_eq_zero hlen.symm)
    unfold code_generator_node
    rw [if_neg hscen, if_neg hne]
    exact ⟨by simp, by simpa using hlen, by simp⟩
  · intro e s
    rfl
  · intro o s0
    refine ⟨code_generator_node o.code (scenario_converter_node o.scen
      (story_generator_node o.story (discovery_node o.disc s0))), ?_⟩
    show _ ∈ [_, _, _, _, _]
    simp [aiStageInputs]

/-- Witness for C8's amended statement at concrete inputs. -/
theorem C8_amended_witness :
    pyTruthy (some "A story") = true ∧
    (scenario_converter_node (.raised "ollama down")
      { demoS0 with final_story := some "A story" }).scenarios ≠ [] :=
  ⟨by decide,
   (C8_amended_upstream_fallbacks.2.1 (.raised "ollama down")
     { demoS0 with final_story := some "A story" } (by decide)).2⟩

/-! ### `is_healed` versus `status` (C9) -/

/-- Config for a run driven through the heal node: long user story, default
healing settings. -/
def healDemoCfg : RunConfig where
  url := "http://example.com"
  testCreationMode := none
  mode := none
  preset := none
  story := some "Check that the landing page renders correctly"
  maxHealAttempts := none
  autoHeal := none

def healDemoS0 : TestRunState := initial_state "r2" healDemoCfg

def healC1 : TestRunState :=
  discovery_node (.ok [⟨"http://example.com", none, ["#root"]⟩]) healDemoS0

def healC2 : TestRunState := story_generator_node (.raised "unused") healC1

def healC3 : TestRunState :=
  scenario_converter_node (.ok "m" [⟨none, some "Landing page", ["step"], ["check"], []⟩]) healC2

def healC4 : TestRunState :=
  code_generator_node (fun _ => .wrote "async def test_landing(): pass") healC3

/-- Runner report with one failing test. -/
def demoFailingReport : RunnerResult where
  ok := true
  error := none
  tests := [⟨"test_landing.py::test_landing", "failed", some "TimeoutError"⟩]
  passed := 0
  failed := 1
  total := 1

def healC5 : TestRunState := execution_node (.ok demoFailingReport) healC4

/-- Heal-node environment that successfully writes one fix. -/
def demoHealOracle : HealNodeOracle where
  raised := none
  fixes := fun _ => .fixed "qwen"

def healC6 : TestRunState := healing_node demoHealOracle healC5

/-- C9 counterexample: a reachable state of a run (right after the heal
node applied a fix) has `is_healed = true` while `status` is still
`running`, not `completed` — the claimed lifecycle invariant fails
mid-run, and `is_healed` was set on mere fix application, not on verified
recovery (the re-run has not happened yet). -/
theorem C9_counterexample_healed_while_running :
    WReachable ⟨.discovery, healDemoS0⟩ ⟨.execute, healC6⟩ ∧
    healC6.is_healed = true ∧ healC6.status = "running" := by
  refine ⟨?_, rfl, rfl⟩
  have h1 : WStep ⟨.discovery, healDemoS0⟩ ⟨.story, healC1⟩ :=
    WStep.disc (.ok [⟨"http://example.com", none, ["#root"]⟩]) healDemoS0
  have h2 : WStep ⟨.story, healC1⟩ ⟨.scenarios, healC2⟩ :=
    WStep.story (.raised "unused") healC1
  have h3 : WStep ⟨.scenarios, healC2⟩ ⟨.code, healC3⟩ :=
    WStep.scen (.ok "m" [⟨none, some "Landing page", ["step"], ["check"], []⟩]) healC2
  have h4 : WStep ⟨.code, healC3⟩ ⟨.execute, healC4⟩ :=
    WStep.code (fun _ => .wrote "async def test_landing(): pass") healC3
  have h5 : WStep ⟨.execute, healC4⟩ ⟨.heal, healC5⟩ :=
    WStep.execHeal (.ok demoFailingReport) healC4 (by decide)
  have h6 : WStep ⟨.heal, healC5⟩ ⟨.execute, healC6⟩ :=
    WStep.heal demoHealOracle healC5
  exact Relation.ReflTransGen.tail
    (Relation.ReflTransGen.tail
      (Relation.ReflTransGen.tail
        (Relation.ReflTransGen.tail
          (Relation.ReflTransGen.tail
            (Relation.ReflTransGen.tail Relation.ReflTransGen.refl h1) h2) h3) h4) h5) h6

/-- C9 amended: the implication `isHealed → status=completed` holds at
pipeline termination — but only because `LangGraphPipeline.run` stamps
`status='completed'` on every normal return (and a raising workflow ends
`failed` with `is_healed` still `false`); mid-run the heal node sets
`is_healed` on fix application while leaving `status` untouched
(`running`). -/
theorem C9_amended_healed_only_at_termination :
    (∀ (run_id : String) (cfg : RunConfig) (fs : TestRunState),
        (pipeline_run run_id cfg (.finished fs)).is_healed = true →
        (pipeline_run run_id cfg (.finished fs)).status = "completed")
    ∧ (∀ (run_id : String) (cfg : RunConfig) (e : String),
        (pipeline_run run_id cfg (.raised e)).is_healed = false)
    ∧ (∀ (o : HealNodeOracle) (s : TestRunState), (healing_node o s).status = s.status) := by
  refine ⟨fun _ _ _ _ => rfl, fun _ _ _ => rfl, ?_⟩
  intro o s
  exact (healing_node_heal_fields o s).2.2

/-- Witness for C9's amended statement at concrete inputs. -/
theorem C9_amended_witness :
    (pipeline_run "r2" healDemoCfg (.finished healC6)).is_healed = true ∧
    (pipeline_run "r2" healDemoCfg (.finished healC6)).status = "completed" :=
  ⟨rfl, C9_amended_healed_only_at_termination.1 "r2" healDemoCfg healC6 rfl⟩

/-! ### Patch rollback and the `.bak` sibling (C6, C10) -/

/-- The function `apply_patch_resolved` raises (returns `.error`) whenever the resolved
content fails validation — bad syntax or no test-entry marker. -/
theorem apply_patch_resolved_error_of_invalid (astParses : String → Bool) (p : PatchDict)
    (file : String) (d : FsDir) (c : String)
    (hc : p.resolvedContent = some c)
    (hbad : astParses c = false ∨
      (strContains c "def test_" = false ∧ strContains c "async def test_" = false)) :
    ∃ msg, (apply_patch_resolved astParses p file d).2 = .error msg := by
  unfold apply_patch_resolved
  rw [hc]
  dsimp only
  rcases hbad with hb | hb
  · rw [if_pos (show validate_python_code astParses c = false from hb)]
    exact ⟨_, rfl⟩
  · cases hsyn : astParses c with
    | false =>
        rw [if_pos (show validate_python_code astParses c = false from hsyn)]
        exact ⟨_, rfl⟩
    | true =>
        rw [if_neg (show ¬ validate_python_code astParses c = false by
          simp [validate_python_code, hsyn])]
        rw [if_pos hb]
        exact ⟨_, rfl⟩

/-- The function `apply_patch` raises (returns `.error`) whenever the resolved content
fails validation — bad syntax or no test-entry marker. -/
theorem apply_patch_error_of_invalid (astParses : String → Bool) (p : PatchDict)
    (glob : List String) (d : FsDir) (c : String)
    (hc : p.resolvedContent = some c)
    (hbad : astParses c = false ∨
      (strContains c "def test_" = false ∧ strContains c "async def test_" = false)) :
    ∃ msg, (apply_patch astParses p glob d).2 = .error msg := by
  unfold apply_patch
  cases hfile : pyOr p.file none with
  | none =>
      cases glob with
      | nil => exact ⟨_, rfl⟩
      | cons g gs => exact apply_patch_resolved_error_of_invalid astParses p (pathName g) d c hc hbad
  | some f => exact apply_patch_resolved_error_of_invalid astParses p f d c hc hbad

/-- One healing attempt restores the snapshot when the patch application
fails: this is exactly the iteration outcome `applyFailed d` with the
pre-attempt directory `d`. -/
theorem C6_invalid_patch_is_noop (o : LoopOracle) (generated_files : List String)
    (n : Nat) (d : FsDir) (suggestions : List Suggestion) (best : Suggestion) (c : String)
    (hsugg : o.suggest n = .returned true suggestions)
    (hne : suggestions ≠ [])
    (hbest : select_best_suggestion suggestions = some best)
    (hc : (build_patch_dict best generated_files).resolvedContent = some c)
    (hbad : o.astParses c = false ∨
      (strContains c "def test_" = false ∧ strContains c "async def test_" = false)) :
    heal_attempt o generated_files n d = .applyFailed d := by
  unfold heal_attempt
  rw [hsugg]
  dsimp only
  rw [if_neg (by simp [hne])]
  rw [hbest]
  dsimp only
  obtain ⟨msg, hmsg⟩ :=
    apply_patch_error_of_invalid o.astParses (build_patch_dict best generated_files)
      (o.glob n) d c hc hbad
  rcases hap : apply_patch o.astParses (build_patch_dict best generated_files) (o.glob n) d
    with ⟨d1, r⟩
  cases r with
  | error m => rfl
  | ok v =>
      rw [hap] at hmsg
      simp at hmsg

/-- Demo suggestion whose fix is rejected by the syntax oracle. -/
def c6Suggestion : Suggestion where
  file := some "test_a.py"
  fix := some "this is not python"
  code := none
  patch := none
  issue := some "Test failure"
  priority := some "high"
  confidence := (85 : ℚ) / 100

/-- Demo environment whose parser rejects everything. -/
def c6Oracle : LoopOracle where
  suggest := fun _ => .returned true [c6Suggestion]
  rerun := fun _ => .raised "unused"
  astParses := fun _ => false
  glob := fun _ => []

/-- Demo artifact directory holding one test file. -/
def c6Dir : FsDir := fun q => if q = "test_a.py" then some "old content" else none

/-- Witness for C6 at concrete inputs: an attempt whose patch fails the
syntax check leaves the directory exactly as snapshotted. -/
theorem C6_witness :
    c6Oracle.suggest 1 = .returned true [c6Suggestion] ∧
    select_best_suggestion [c6Suggestion] = some c6Suggestion ∧
    (build_patch_dict c6Suggestion []).resolvedContent = some "this is not python" ∧
    c6Oracle.astParses "this is not python" = false ∧
    heal_attempt c6Oracle [] 1 c6Dir = .applyFailed c6Dir :=
  ⟨rfl, by simp [select_best_suggestion], rfl, rfl,
   C6_invalid_patch_is_noop c6Oracle [] 1 c6Dir [c6Suggestion] c6Suggestion
     "this is not python" rfl (by simp) (by simp [select_best_suggestion]) rfl (Or.inl rfl)⟩

/-- A name is never its own `.bak` sibling. -/
theorem bak_ne (s : String) : s ++ ".bak" ≠ s := by
  intro h
  have hlen := congrArg String.length h
  rw [String.length_append] at hlen
  have h4 : (".bak" : String).length = 4 := rfl
  omega

/-- C10: a successfully committed patch to an existing target leaves the
old version behind as the `.bak` sibling inside the artifact directory —
after `apply_patch` returns ok, the directory holds the new content at
`file` and the previous content at `file ++ ".bak"`. -/
theorem C10_successful_patch_keeps_bak (astParses : String → Bool) (p : PatchDict)
    (glob : List String) (d : FsDir) (file c old : String)
    (hfile : pyOr p.file none = some file)
    (hold : d file = some old)
    (hc : p.resolvedContent = some c)
    (hsyn : astParses c = true)
    (hmark : strContains c "def test_" = true ∨ strContains c "async def test_" = true) :
    (apply_patch astParses p glob d).2 = .ok file ∧
    (apply_patch astParses p glob d).1 file = some c ∧
    (apply_patch astParses p glob d).1 (file ++ ".bak") = some old := by
  unfold apply_patch
  rw [hfile]
  unfold apply_patch_resolved
  rw [hc]
  dsimp only
  rw [if_neg (show ¬ validate_python_code astParses c = false by
    simp [validate_python_code, hsyn])]
  rw [if_neg (show ¬ (strContains c "def test_" = false ∧
      strContains c "async def test_" = false) by
    rcases hmark with h | h
    · intro hcon
      rw [h] at hcon
      exact absurd hcon.1 (by simp)
    · intro hcon
      rw [h] at hcon
      exact absurd hcon.2 (by simp))]
  have hbak_ne : file ++ ".bak" ≠ file := bak_ne file
  have hst : apply_patch_backup_step d file =
      ((if (d (file ++ ".bak")).isSome then d.unlink (file ++ ".bak") else d).rename
        file (file ++ ".bak"), true) := by
    unfold apply_patch_backup_step
    rw [hold]
  rw [hst]
  refine ⟨rfl, ?_, ?_⟩
  · show FsDir.write _ file c file = some c
    unfold FsDir.write
    rw [if_pos rfl]
  · show FsDir.write _ file c (file ++ ".bak") = some old
    unfold FsDir.write FsDir.rename
    rw [if_neg hbak_ne]
    dsimp only
    rw [if_pos rfl]
    split
    · unfold FsDir.unlink
      rw [if_neg (Ne.symm hbak_ne)]
      exact hold
    · exact hold

/-- Demo patch and environment for the C10 witness. -/
def c10Patch : PatchDict where
  file := some "test_a.py"
  content := some "async def test_a(): pass"
  fix := none
  patch := none

/-- Witness for C10 at concrete inputs: the committed patch leaves both
the new content and the `.bak` copy of the old content. -/
theorem C10_witness :
    pyOr c10Patch.file none = some "test_a.py" ∧
    c6Dir "test_a.py" = some "old content" ∧
    c10Patch.resolvedContent = some "async def test_a(): pass" ∧
    strContains "async def test_a(): pass" "def test_" = true ∧
    (apply_patch (fun _ => true) c10Patch [] c6Dir).1 "test_a.py" =
      some "async def test_a(): pass" ∧
    (apply_patch (fun _ => true) c10Patch [] c6Dir).1 "test_a.py.bak" = some "old content" :=
  ⟨rfl, rfl, rfl, by decide,
   (C10_successful_patch_keeps_bak (fun _ => true) c10Patch [] c6Dir
     "test_a.py" "async def test_a(): pass" "old content" rfl rfl rfl rfl
     (Or.inl (by decide))).2.1,
   (C10_successful_patch_keeps_bak (fun _ => true) c10Patch [] c6Dir
     "test_a.py" "async def test_a(): pass" "old content" rfl rfl rfl rfl
     (Or.inl (by decide))).2.2⟩

/-! ### Zero-suggestion behaviour of the healing loop (C7) -/

/-- Heal-node environment in which no usable fix is produced for any
failed test (the suggestion list ends up empty). -/
def c7NoFixOracle : HealNodeOracle where
  raised := none
  fixes := fun _ => .genUnusable

/-- C7 counterexample: the graph's heal node, invoked on a failing run
where the model yields zero usable suggestions, still increments
`healing_attempts` (0 → 1) and does not mark the run failed (`status`
stays `running`) — contradicting the claimed abort-with-budget-unchanged
behaviour for this healing-loop implementation. -/
theorem C7_counterexample_node_consumes_budget :
    healC5.healing_attempts = 0 ∧
    (healing_node c7NoFixOracle healC5).is_healed = false ∧
    (healing_node c7NoFixOracle healC5).healing_attempts = 1 ∧
    (healing_node c7NoFixOracle healC5).status = "running" :=
  ⟨rfl, rfl, rfl, rfl⟩

/-- C7 amended: the standalone loop (`auto_heal_and_rerun`, the healing
loop `main.py` invokes) does abort immediately when the suggestion service
returns no suggestions (or a not-ok result): no budget is consumed
(`healing_attempts = 0`), the artifact directory is untouched, and the
caller then marks the run failed. -/
theorem C7_amended_standalone_aborts (o : LoopOracle) (gf : List String)
    (ft : List TestRec) (maxA : Nat) (d : FsDir) (b : Bool) (l : List Suggestion)
    (h1 : o.suggest 1 = .returned b l)
    (hz : b = false ∨ l = [])
    (hmax : 1 ≤ maxA) :
    auto_heal_and_rerun o gf ft maxA d =
      { ok := true, healed := false, healing_attempts := 0, finalDir := d } ∧
    main_status_after_healing (auto_heal_and_rerun o gf ft maxA d) = "failed" := by
  obtain ⟨r, rfl⟩ : ∃ r, maxA = r + 1 := ⟨maxA - 1, by omega⟩
  have hA : heal_attempt o gf 1 d = .noSuggestions := by
    unfold heal_attempt
    rw [h1]
    dsimp only
    rw [if_pos hz]
  have hres : auto_heal_and_rerun o gf ft (r + 1) d =
      { ok := true, healed := false, healing_attempts := 0, finalDir := d } := by
    unfold auto_heal_and_rerun
    simp only [healLoopAux]
    rw [hA]
  refine ⟨hres, ?_⟩
  rw [hres]
  rfl

/-- Witness for C7's amended statement at concrete inputs. -/
theorem C7_amended_witness :
    demoLoopOracle.suggest 1 = .returned false [] ∧
    auto_heal_and_rerun demoLoopOracle [] [] 3 demoDir =
      { ok := true, healed := false, healing_attempts := 0, finalDir := demoDir } ∧
    main_status_after_healing (auto_heal_and_rerun demoLoopOracle [] [] 3 demoDir) =
      "failed" :=
  ⟨rfl,
   (C7_amended_standalone_aborts demoLoopOracle [] [] 3 demoDir false []
     rfl (Or.inl rfl) (by omega)).1,
   (C7_amended_standalone_aborts demoLoopOracle [] [] 3 demoDir false []
     rfl (Or.inl rfl) (by omega)).2⟩

/-- Supporting fact for the rollback claim, at the `apply_patch` level
itself: when the target exists, no stale backup is present, and the content
fails validation, the back-up rename followed by the restoring rename puts
the directory back exactly (pointwise). -/
theorem apply_patch_resolved_restores_on_invalid (astParses : String → Bool)
    (p : PatchDict) (file : String) (d : FsDir) (c old : String)
    (hold : d file = some old)
    (hnobak : d (file ++ ".bak") = none)
    (hc : p.resolvedContent = some c)
    (hbad : astParses c = false ∨
      (strContains c "def test_" = false ∧ strContains c "async def test_" = false)) :
    (apply_patch_resolved astParses p file d).1 = d := by
  have hbak_ne : file ++ ".bak" ≠ file := bak_ne file
  have hst : apply_patch_backup_step d file = (d.rename file (file ++ ".bak"), true) := by
    unfold apply_patch_backup_step
    rw [hold]
    dsimp only
    rw [hnobak]
    rfl
  have hrestore : apply_patch_restore_step (d.rename file (file ++ ".bak")) file true = d := by
    unfold apply_patch_restore_step
    rw [if_pos rfl]
    have hsome : ((d.rename file (file ++ ".bak")) (file ++ ".bak")).isSome = true := by
      unfold FsDir.rename
      rw [if_pos rfl, hold]
      rfl
    rw [if_pos hsome]
    funext q
    unfold FsDir.rename
    by_cases hq : q = file
    · subst hq
      rw [if_pos rfl, if_pos rfl, hold]
    · rw [if_neg hq]
      by_cases hqb : q = file ++ ".bak"
      · subst hqb
        rw [if_neg hbak_ne, if_pos rfl]
        exact hnobak.symm
      · rw [if_neg hqb, if_neg hqb, if_neg hq]
  unfold apply_patch_resolved
  rw [hc]
  dsimp only
  rcases hbad with hb | hb
  · rw [if_pos (show validate_python_code astParses c = false from hb)]
    rw [hst]
    exact hrestore
  · cases hsyn : astParses c with
    | false =>
        rw [if_pos (show validate_python_code astParses c = false from hsyn)]
        rw [hst]
        exact hrestore
    | true =>
        rw [if_neg (show ¬ validate_python_code astParses c = false by
          simp [validate_python_code, hsyn])]
        rw [if_pos hb]
        rw [hst]
        exact hrestore
